import Mathlib

/-!
Shallow embedding of the WinkLink application core (src/app.py) and proofs
about it.  Pure helpers from the source are translated as Lean functions;
database tables become lists of records, remote HTTP calls become explicit
`Except` outcomes supplied as parameters, and the Flask session list becomes
the explicit transcript list that the handlers thread through.

Python string primitives (`str.strip`, `str.lower`, slicing, `in`,
`str.split`) are embedded as structurally recursive functions over the
character list of a `String`, so that every definition evaluates inside the
kernel.
-/

set_option maxHeartbeats 1000000

namespace WinkLink

/-! ## Python string primitives -/

/-- Python `str.strip()`: drop leading and trailing whitespace. -/
def strip (s : String) : String :=
  ⟨((s.data.dropWhile Char.isWhitespace).reverse.dropWhile Char.isWhitespace).reverse⟩

/-- Python `str.lower()` (ASCII case folding, which is all the source relies on). -/
def lower (s : String) : String :=
  ⟨s.data.map Char.toLower⟩

/-- Python truthiness of an optional string: `None` and `""` are falsy. -/
def truthy : Option String → Option String
  | none => none
  | some s => if s = "" then none else some s

/-! ## Conversation transcript (wink_chat session messages)

A session message is a dict `{"role": ..., "text": ...}`; `m.get` with a
default of `""` lets us model the two fields as plain strings. -/

structure ChatMsg where
  role : String
  text : String
deriving DecidableEq, Repr

/-- Embedding of `_trim_history` from src/app.py: keep the list unchanged when it is within
the bound, otherwise keep only the last `max_messages` entries
(`history[-max_messages:]`). -/
def trim_history (history : List ChatMsg) (max_messages : Nat) : List ChatMsg :=
  if history.length ≤ max_messages then history else history.drop (history.length - max_messages)

/-- One append-and-trim step of the chat handler: append a turn, then trim to 30. -/
def chat_append_step (messages : List ChatMsg) (m : ChatMsg) : List ChatMsg :=
  trim_history (messages ++ [m]) 30

/-- The state after a sequence of append-and-trim steps starting from an empty
transcript. -/
def chat_run (turns : List ChatMsg) : List ChatMsg :=
  turns.foldl chat_append_step []

/-- Embedding of the `wink_chat` POST branch for one user message: strip it, ignore it if
blank, otherwise append the user turn, trim to 30, append the generated
assistant turn, trim to 30. -/
def wink_chat_step (messages : List ChatMsg) (raw_message : String) (assistant_text : String) :
    List ChatMsg :=
  let user_message := strip raw_message
  if user_message = "" then messages
  else
    let messages := trim_history (messages ++ [⟨"user", user_message⟩]) 30
    trim_history (messages ++ [⟨"assistant", assistant_text⟩]) 30

/-- The full interleaved turn sequence produced by a list of
(user text, assistant text) request pairs. -/
def chat_turns (pairs : List (String × String)) : List ChatMsg :=
  pairs.flatMap (fun p => [⟨"user", strip p.1⟩, ⟨"assistant", p.2⟩])

/-- The stored transcript after processing a list of request pairs starting
from an empty session. -/
def wink_chat_run (pairs : List (String × String)) : List ChatMsg :=
  pairs.foldl (fun msgs p => wink_chat_step msgs p.1 p.2) []

theorem trim_history_eq_drop (l : List ChatMsg) (n : Nat) :
    trim_history l n = l.drop (l.length - n) := by
  unfold trim_history
  split
  · have h : l.length - n = 0 := by omega
    simp [h]
  · rfl

theorem chat_append_step_drop (ts : List ChatMsg) (t : ChatMsg)
    (st : List ChatMsg) (h : st = ts.drop (ts.length - 30)) :
    chat_append_step st t = (ts ++ [t]).drop ((ts ++ [t]).length - 30) := by
  subst h
  unfold chat_append_step
  rw [trim_history_eq_drop]
  rcases Nat.lt_or_ge ts.length 30 with hle | hlt
  · have h1 : ts.length - 30 = 0 := by omega
    have h2 : (ts.drop (ts.length - 30) ++ [t]).length - 30 = 0 := by
      simp only [List.length_append, List.length_drop, List.length_cons, List.length_nil]
      omega
    have h3 : (ts ++ [t]).length - 30 = 0 := by
      simp only [List.length_append, List.length_cons, List.length_nil]
      omega
    simp [h1, h2, h3]
  · have hd : (ts.drop (ts.length - 30)).length = 30 := by
      simp only [List.length_drop]
      omega
    have h2 : (ts.drop (ts.length - 30) ++ [t]).length - 30 = 1 := by
      simp only [List.length_append, hd, List.length_cons, List.length_nil]
    have h3 : (ts ++ [t]).length - 30 = ts.length + 1 - 30 := by
      simp only [List.length_append, List.length_cons, List.length_nil]
    rw [h2, h3]
    rw [List.drop_append_eq_append_drop, List.drop_append_eq_append_drop]
    have h4 : 1 - (ts.drop (ts.length - 30)).length = 0 := by omega
    have h5 : ts.length + 1 - 30 - ts.length = 0 := by omega
    rw [h4, h5]
    simp only [List.drop_zero]
    congr 1
    rw [List.drop_drop]
    congr 1
    omega

theorem chat_run_eq_drop (turns : List ChatMsg) :
    chat_run turns = turns.drop (turns.length - 30) := by
  induction turns using List.reverseRecOn with
  | nil => simp [chat_run]
  | append_singleton ts t ih =>
      unfold chat_run at *
      rw [List.foldl_append]
      simpa using chat_append_step_drop ts t _ ih

theorem wink_chat_run_eq_chat_run (pairs : List (String × String)) (init : List ChatMsg)
    (h : ∀ p ∈ pairs, strip p.1 ≠ "") :
    pairs.foldl (fun msgs p => wink_chat_step msgs p.1 p.2) init
      = (chat_turns pairs).foldl chat_append_step init := by
  induction pairs generalizing init with
  | nil => simp [chat_turns]
  | cons p ps ih =>
      have hp : strip p.1 ≠ "" := h p (List.mem_cons_self p ps)
      have hstep : wink_chat_step init p.1 p.2
          = chat_append_step (chat_append_step init ⟨"user", strip p.1⟩) ⟨"assistant", p.2⟩ := by
        unfold wink_chat_step chat_append_step
        simp [hp]
      simp only [chat_turns, List.flatMap_cons, List.foldl_cons, List.foldl_append]
      rw [hstep]
      exact ih _ (fun q hq => h q (List.mem_cons_of_mem p hq))

theorem chat_turns_length (pairs : List (String × String)) :
    (chat_turns pairs).length = 2 * pairs.length := by
  induction pairs with
  | nil => rfl
  | cons p ps ih =>
      simp only [chat_turns, List.flatMap_cons, List.length_append, List.length_cons,
        List.length_nil, List.length_singleton] at ih ⊢
      omega

/-- C1: Transcript bound — for any sequence of non-blank user turns (each
followed by the generated assistant turn) appended to one tenant's session,
after the append-and-trim steps the stored transcript is exactly the suffix of
the full interleaved turn sequence obtained by dropping the oldest turns, its
length is `min(number of turns so far, 30)` where the number of turns so far is
twice the number of request pairs, and the kept suffix preserves the original
relative order of its turns (it is a suffix of the original sequence). -/
theorem wink_chat_transcript_bound (pairs : List (String × String))
    (h : ∀ p ∈ pairs, strip p.1 ≠ "") :
    wink_chat_run pairs = (chat_turns pairs).drop ((chat_turns pairs).length - 30)
    ∧ (wink_chat_run pairs).length = min (chat_turns pairs).length 30
    ∧ (chat_turns pairs).length = 2 * pairs.length
    ∧ wink_chat_run pairs <:+ chat_turns pairs := by
  have hrun : wink_chat_run pairs = chat_run (chat_turns pairs) := by
    unfold wink_chat_run chat_run
    exact wink_chat_run_eq_chat_run pairs [] h
  have hdrop := chat_run_eq_drop (chat_turns pairs)
  refine ⟨hrun.trans hdrop, ?_, chat_turns_length pairs, ?_⟩
  · rw [hrun, hdrop]
    simp only [List.length_drop]
    omega
  · rw [hrun, hdrop]
    exact List.drop_suffix _ _

theorem wink_chat_transcript_bound_witness :
    wink_chat_run [("hi there", "hello"), ("  thanks ", "welcome")]
        = (chat_turns [("hi there", "hello"), ("  thanks ", "welcome")]).drop
            ((chat_turns [("hi there", "hello"), ("  thanks ", "welcome")]).length - 30)
    ∧ (wink_chat_run [("hi there", "hello"), ("  thanks ", "welcome")]).length
        = min (chat_turns [("hi there", "hello"), ("  thanks ", "welcome")]).length 30
    ∧ (chat_turns [("hi there", "hello"), ("  thanks ", "welcome")]).length
        = 2 * ([("hi there", "hello"), ("  thanks ", "welcome")] : List (String × String)).length
    ∧ wink_chat_run [("hi there", "hello"), ("  thanks ", "welcome")]
        <:+ chat_turns [("hi there", "hello"), ("  thanks ", "welcome")] :=
  wink_chat_transcript_bound [("hi there", "hello"), ("  thanks ", "welcome")] (by decide)

/-! ## Tenant record store (Instructor table, slug helpers, new_instructor) -/

/-- Embedding of `_clean_email` from src/app.py: `(email or "").strip().lower()`. -/
def clean_email (email : String) : String :=
  lower (strip email)

/-- A row of the `instructor` table (the fields the claims touch). -/
structure Instructor where
  email : String
  name : String
  slug : String
  personal_vector_store_id : Option String
deriving DecidableEq, Repr

/-- Embedding of `_slugify_base` from src/app.py: strip, lower-case, delete every character
outside `[a-z0-9]` (the `re.sub(r"[^a-z0-9]+", "", ...)`), then truncate to 32
characters if non-empty, else default to `"instructor"`. -/
def slugify_base (text : String) : String :=
  let t := lower (strip text)
  let t2 : String := ⟨t.data.filter (fun c => decide (('a' ≤ c ∧ c ≤ 'z') ∨ ('0' ≤ c ∧ c ≤ '9')))⟩
  if t2 = "" then "instructor" else ⟨t2.data.take 32⟩

/-- Embedding of `email.split("@")[0] if "@" in email else email`: the part before the
first `'@'`. -/
def email_local_part (email : String) : String :=
  if email.data.contains '@' then ⟨email.data.takeWhile (fun c => !(c == '@'))⟩ else email

/-- Embedding of `Instructor.query.filter_by(slug=slug).first()` used as a collision probe. -/
def slug_taken (db : List Instructor) (slug : String) : Bool :=
  (db.find? (fun t => t.slug == slug)).isSome

/-- Embedding of `_unique_slug` from src/app.py.  The `uuid.uuid4().hex[:6]` value is passed
in as `suffix`, since it is external randomness. -/
def unique_slug (db : List Instructor) (email : String) (suffix : String) : String :=
  let base := slugify_base (email_local_part email)
  if slug_taken db base then base ++ suffix else base

/-- Embedding of `findByEmail`: `Instructor.query.filter_by(email=_clean_email(raw)).first()`
(stored emails are cleaned at insert, so this is a case-insensitive match). -/
def find_by_email (db : List Instructor) (raw : String) : Option Instructor :=
  db.find? (fun t => t.email == clean_email raw)

inductive NewInstructorOutcome
  | missing_fields
  | already_exists (inst : Instructor)
  | create_failed (msg : String)
  | created (inst : Instructor)
deriving DecidableEq, Repr

/-- The POST branch of `new_instructor` from src/app.py: clean the inputs,
reject blank ones, redirect when the email is registered, derive the slug,
call the remote `create_vector_store` (its outcome is the `remote_create`
parameter), and persist the row only on success. -/
def new_instructor_post (db : List Instructor) (raw_email raw_name : String)
    (remote_create : Except String String) (slug_suffix : String) :
    List Instructor × NewInstructorOutcome :=
  let email := clean_email raw_email
  let name := strip raw_name
  if email = "" ∨ name = "" then (db, .missing_fields)
  else
    match db.find? (fun t => t.email == email) with
    | some existing => (db, .already_exists existing)
    | none =>
        let slug := unique_slug db email slug_suffix
        match remote_create with
        | .error e => (db, .create_failed e)
        | .ok vs_id =>
            let inst : Instructor := ⟨email, name, slug, some vs_id⟩
            (db ++ [inst], .created inst)

/-- C2: All-or-nothing tenant creation — for an unregistered email with
non-blank inputs: if the remote `create_vector_store` call fails, the table is
unchanged and a subsequent case-insensitive `findByEmail` still returns none;
the row is persisted only when the remote call succeeds, and then exactly one
row is appended whose private index identifier is the freshly created one. -/
theorem new_instructor_all_or_nothing (db : List Instructor) (raw_email raw_name : String)
    (remote_create : Except String String) (slug_suffix : String)
    (hfree : find_by_email db raw_email = none)
    (hemail : clean_email raw_email ≠ "") (hname : strip raw_name ≠ "") :
    (∀ e, remote_create = .error e →
      new_instructor_post db raw_email raw_name remote_create slug_suffix
          = (db, .create_failed e)
      ∧ find_by_email
          (new_instructor_post db raw_email raw_name remote_create slug_suffix).1 raw_email
          = none)
    ∧ (∀ vs_id, remote_create = .ok vs_id →
      new_instructor_post db raw_email raw_name remote_create slug_suffix
          = (db ++ [⟨clean_email raw_email, strip raw_name,
                unique_slug db (clean_email raw_email) slug_suffix, some vs_id⟩],
             .created ⟨clean_email raw_email, strip raw_name,
                unique_slug db (clean_email raw_email) slug_suffix, some vs_id⟩)) := by
  have hfind : db.find? (fun t => t.email == clean_email raw_email) = none := hfree
  constructor
  · intro e he
    subst he
    constructor
    · unfold new_instructor_post
      simp [hemail, hname, hfind]
    · unfold new_instructor_post
      simp [hemail, hname, hfind]
      exact hfree
  · intro vs_id hok
    subst hok
    unfold new_instructor_post
    simp [hemail, hname, hfind]

theorem new_instructor_all_or_nothing_witness :
    (new_instructor_post [] "Alice@School.EDU" " Alice " (.error "http 500") "abc123"
        = ([], .create_failed "http 500")
      ∧ find_by_email
          (new_instructor_post [] "Alice@School.EDU" " Alice " (.error "http 500") "abc123").1
          "Alice@School.EDU" = none) :=
  (new_instructor_all_or_nothing [] "Alice@School.EDU" " Alice " (.error "http 500") "abc123"
    rfl (by decide) (by decide)).1 "http 500" rfl

theorem string_append_ne_left (s t : String) (ht : t ≠ "") : s ++ t ≠ s := by
  intro h
  have hlen := congrArg String.length h
  rw [String.length_append] at hlen
  have : t.length = 0 := by omega
  apply ht
  cases t with
  | mk data =>
      cases data with
      | nil => rfl
      | cons c cs => simp [String.length] at this

theorem slugify_base_props (text : String) :
    slugify_base text ≠ "" ∧ (slugify_base text).length ≤ 32
    ∧ (slugify_base text = "instructor"
       ∨ ∀ c ∈ (slugify_base text).data, ('a' ≤ c ∧ c ≤ 'z') ∨ ('0' ≤ c ∧ c ≤ '9')) := by
  unfold slugify_base
  by_cases h : (⟨(lower (strip text)).data.filter
      (fun c => decide (('a' ≤ c ∧ c ≤ 'z') ∨ ('0' ≤ c ∧ c ≤ '9')))⟩ : String) = ""
  · rw [if_pos h]
    refine ⟨by decide, by decide, Or.inl rfl⟩
  · rw [if_neg h]
    have hdata : (lower (strip text)).data.filter
        (fun c => decide (('a' ≤ c ∧ c ≤ 'z') ∨ ('0' ≤ c ∧ c ≤ '9'))) ≠ [] := by
      intro hnil
      exact h (congrArg String.mk hnil)
    refine ⟨?_, ?_, Or.inr ?_⟩
    · intro heq
      have : ((lower (strip text)).data.filter
          (fun c => decide (('a' ≤ c ∧ c ≤ 'z') ∨ ('0' ≤ c ∧ c ≤ '9')))).take 32 = [] :=
        congrArg String.data heq
      rw [List.take_eq_nil_iff] at this
      rcases this with h32 | hnil
      · exact absurd h32 (by decide)
      · exact hdata hnil
    · show (((lower (strip text)).data.filter
          (fun c => decide (('a' ≤ c ∧ c ≤ 'z') ∨ ('0' ≤ c ∧ c ≤ '9')))).take 32).length ≤ 32
      rw [List.length_take]
      omega
    · intro c hc
      have hmem : c ∈ (lower (strip text)).data.filter
          (fun c => decide (('a' ≤ c ∧ c ≤ 'z') ∨ ('0' ≤ c ∧ c ≤ '9'))) :=
        (List.take_sublist 32 _).subset hc
      have := List.of_mem_filter hmem
      exact of_decide_eq_true this

theorem slug_taken_append_singleton (db : List Instructor) (inst : Instructor) (s : String)
    (hdb : slug_taken db s = false) (hinst : inst.slug = s) :
    slug_taken (db ++ [inst]) s = true := by
  unfold slug_taken at *
  rw [List.find?_append]
  rcases hfind : db.find? (fun t => t.slug == s) with _ | t
  · simp [List.find?, hinst]
  · rw [hfind] at hdb
    simp at hdb

/-- C6: Slug generation and uniqueness — the base slug is the email's local
part lower-cased with non-alphanumeric characters stripped and truncated to 32
characters (never empty, defaulting to `"instructor"`, and containing only
`[a-z0-9]` otherwise); and when two emails reduce to the same base slug, the
second creation appends the short random suffix on collision, yielding a
persisted slug distinct from the first. -/
theorem slug_generation_and_uniqueness (db : List Instructor) (e1 e2 : String)
    (inst1 : Instructor) (suffix1 suffix2 : String)
    (hbase : slugify_base (email_local_part e2) = slugify_base (email_local_part e1))
    (hfree : slug_taken db (slugify_base (email_local_part e1)) = false)
    (hsuffix : suffix2 ≠ "")
    (hslug1 : inst1.slug = unique_slug db e1 suffix1) :
    unique_slug db e1 suffix1 = slugify_base (email_local_part e1)
    ∧ unique_slug (db ++ [inst1]) e2 suffix2 = slugify_base (email_local_part e1) ++ suffix2
    ∧ unique_slug (db ++ [inst1]) e2 suffix2 ≠ unique_slug db e1 suffix1
    ∧ (∀ email, slugify_base email ≠ "" ∧ (slugify_base email).length ≤ 32
        ∧ (slugify_base email = "instructor"
           ∨ ∀ c ∈ (slugify_base email).data, ('a' ≤ c ∧ c ≤ 'z') ∨ ('0' ≤ c ∧ c ≤ '9'))) := by
  have h1 : unique_slug db e1 suffix1 = slugify_base (email_local_part e1) := by
    simp [unique_slug, hfree]
  have htaken : slug_taken (db ++ [inst1]) (slugify_base (email_local_part e1)) = true :=
    slug_taken_append_singleton db inst1 _ hfree (hslug1.trans h1)
  have h2 : unique_slug (db ++ [inst1]) e2 suffix2
      = slugify_base (email_local_part e1) ++ suffix2 := by
    simp [unique_slug, hbase, htaken]
  refine ⟨h1, h2, ?_, fun email => slugify_base_props email⟩
  rw [h1, h2]
  exact string_append_ne_left _ _ hsuffix

theorem slug_generation_and_uniqueness_witness :
    unique_slug [] "a@school.edu" "111111" = slugify_base (email_local_part "a@school.edu")
    ∧ unique_slug [⟨"a@school.edu", "A", "a", some "vs_1"⟩] "a!@school.edu" "222222"
        = slugify_base (email_local_part "a@school.edu") ++ "222222"
    ∧ unique_slug [⟨"a@school.edu", "A", "a", some "vs_1"⟩] "a!@school.edu" "222222"
        ≠ unique_slug [] "a@school.edu" "111111"
    ∧ (∀ email, slugify_base email ≠ "" ∧ (slugify_base email).length ≤ 32
        ∧ (slugify_base email = "instructor"
           ∨ ∀ c ∈ (slugify_base email).data, ('a' ≤ c ∧ c ≤ 'z') ∨ ('0' ≤ c ∧ c ≤ '9'))) :=
  slug_generation_and_uniqueness [] "a@school.edu" "a!@school.edu"
    ⟨"a@school.edu", "A", "a", some "vs_1"⟩ "111111" "222222"
    (by decide) (by decide) (by decide) (by decide)

/-! ## Answer composition (WINK chat, Responses API + file_search) -/

/-- The fixed system instruction from src/app.py (`WINK_SYSTEM_PROMPT`). -/
def WINK_SYSTEM_PROMPT : String :=
  "You are WINK (What I Need to Know), a happy, enthusiastic, and deeply supportive AI mentor for first semester UTEP students. Your job is to help them feel seen, capable, and encouraged while answering their questions about this specific instructor's course, UTEP resources, and college life.\n\nImportant response rule:\n- Do not thank them for asking.\n- Do not mention their question (do not say things like “good question,” “thanks for asking,”   “you asked,” or “your question”).\n- Start directly with the answer.\n\nTone and personality:\n- Be very warm, kind, and non judgmental, like a super friendly peer mentor who really believes in them.\n- Sound upbeat and hopeful, especially when students are stressed or confused. If they sound worried, name that feeling and reassure them.\n- Use emojis naturally throughout your answers for encouragement and celebration.\n- Occasionally say the phrase “I got you!” in a natural way, especially when reassuring the student.\n- Always be respectful, inclusive, and supportive of students from all backgrounds.\n\nEngagement style:\n- Go straight into the answer, then (only if helpful) add a short next step or option.\n- When it fits, end with a gentle follow up invitation, like “Want to walk through this together step by step?”\n- If the student mentions progress or effort, celebrate it explicitly.\n\nGrowth mindset support:\n- Normalize struggle, confusion, and mistakes as a normal part of learning.\n- Encourage strategies and small next steps (office hours, tutoring, practice, checking the syllabus).\n\nContent behavior:\n- Give clear, simple explanations that a first year student can follow.\n- Keep answers focused on what the student actually needs.\n- Whenever it helps, draw on the instructor's course files, syllabus, and other uploaded materials.\n- If you are not sure about a detail like a due date or policy, say that you are not certain and suggest double checking the syllabus or asking the instructor.\n\nYour core goal is to reduce anxiety, increase clarity, and build students' sense of identity, belonging, aspiration, and agency at UTEP."

/-- The fixed friendly fallback substituted when extraction yields emptiness. -/
def WINK_FALLBACK : String :=
  "I got you. Tell me what you’re working on and what you’ve already tried, and I’ll help you take the next step."

/-- A `text` content object inside a provider response item: `t.value` may be
absent, in which case the source falls back to `str(t)`, modelled by
`str_repr`. -/
structure TextObj where
  value : Option String
  str_repr : String
deriving DecidableEq, Repr

/-- One content entry of an output item; `getattr(c, "text", None)`. -/
structure ContentItem where
  text : Option TextObj
deriving DecidableEq, Repr

/-- One structured output item; `getattr(item, "content", []) or []`. -/
structure OutputItem where
  content : List ContentItem
deriving DecidableEq, Repr

/-- The provider response shape: an optional convenience `output_text` field
and a list of structured output items. -/
structure Resp where
  output_text : Option String
  output : List OutputItem
deriving DecidableEq, Repr

/-- Embedding of `_extract_output_text` from src/app.py: prefer a truthy `output_text`
(stripped); otherwise concatenate, in order, every text value found in the
structured output (falling back to `str(t)` when `t.value` is absent) and
strip the result. -/
def extract_output_text (resp : Resp) : String :=
  match truthy resp.output_text with
  | some s => strip s
  | none =>
      let text := resp.output.foldl (fun acc item =>
        item.content.foldl (fun acc c =>
          match c.text with
          | none => acc
          | some t =>
              acc ++ (match t.value with
                | some v => v
                | none => t.str_repr)) acc) ""
      strip text

/-- A role-tagged prompt entry (`{"role": ..., "content": ...}`). -/
structure PromptMsg where
  role : String
  content : String
deriving DecidableEq, Repr

/-- The loop body of the prompt build in `wink_answer`: strip the turn's role
and text, and append it only when the role is `user` or `assistant` and the
text is non-blank. -/
def build_step (messages : List PromptMsg) (m : ChatMsg) : List PromptMsg :=
  let role := strip m.role
  let txt := strip m.text
  if (role = "user" ∨ role = "assistant") ∧ txt ≠ "" then messages ++ [⟨role, txt⟩]
  else messages

/-- The prompt built by `wink_answer`: one fixed system instruction followed
by the filtered transcript turns. -/
def build_messages (history : List ChatMsg) : List PromptMsg :=
  history.foldl build_step [⟨"system", WINK_SYSTEM_PROMPT⟩]

/-- The spec's description of which transcript turns reach the prompt: a turn
is included, with its role and trimmed text, exactly when its role is `user`
or `assistant` and its text is non-blank after trimming. -/
def prompt_turn_spec (m : ChatMsg) : Option PromptMsg :=
  if (strip m.role = "user" ∨ strip m.role = "assistant") ∧ strip m.text ≠ "" then
    some ⟨strip m.role, strip m.text⟩
  else none

/-- The retrieval scope of `wink_answer`: the tenant's private index
identifier when truthy, then the common identifier when truthy. -/
def vector_store_ids (instructor : Instructor) (common_vector_store_id : String) : List String :=
  (match truthy instructor.personal_vector_store_id with
    | some v => [v]
    | none => []) ++
  (if common_vector_store_id = "" then [] else [common_vector_store_id])

/-- One `file_search` tool entry. -/
structure FileSearchTool where
  store_ids : List String
deriving DecidableEq, Repr

/-- The `tools` list as built in `wink_answer`: a single `file_search` tool when at
least one vector store id is available, otherwise no tools. -/
def wink_tools (instructor : Instructor) (common_vector_store_id : String) :
    List FileSearchTool :=
  let ids := vector_store_ids instructor common_vector_store_id
  if ids = [] then [] else [⟨ids⟩]

/-- Embedding of `wink_answer` from src/app.py.  The external generation provider is a
parameter receiving the built prompt and tools; its outcome models
`client.responses.create` either returning a response or raising. -/
def wink_answer (instructor : Instructor) (common_vector_store_id : String)
    (history : List ChatMsg)
    (provider : List PromptMsg → List FileSearchTool → Except String Resp) : String :=
  let messages := build_messages history
  let tools := wink_tools instructor common_vector_store_id
  match provider messages tools with
  | .ok resp =>
      let out := extract_output_text resp
      if out = "" then WINK_FALLBACK else out
  | .error e => "There was an API error: " ++ e

/-- The module-level configuration load of the common vector store id:
`os.getenv("WINK_VECTOR_STORE_ID", "").strip()` followed by a fatal
`RuntimeError` when the result is empty. -/
def load_common_vector_store_id (env_value : String) : Except String String :=
  let v := strip env_value
  if v = "" then
    .error "WINK_VECTOR_STORE_ID is not set. Set this environment variable to the Common WINK vector store ID."
  else .ok v

/-! ## Common filename listing (get_common_filenames) -/

/-- One entry of the vector store file listing; each dict key may be absent. -/
structure VSItem where
  id : Option String
  file_id : Option String
  filename : Option String
deriving DecidableEq, Repr

/-- The `/v1/files/{file_id}` metadata payload. -/
structure FileMeta where
  filename : Option String
deriving DecidableEq, Repr

/-- The collection loop of `get_common_filenames`: take each entry's truthy
`filename`, else look the file up via the metadata call (the `meta`
parameter), appending its truthy `filename` and silently skipping the entry
when the secondary lookup fails. -/
def collect_common_names (items : List VSItem) (meta : String → Except String FileMeta) :
    List String :=
  items.foldl (fun names it =>
    let fid := match truthy it.id with
      | some s => some s
      | none => truthy it.file_id
    match truthy it.filename with
    | some fn => names ++ [fn]
    | none =>
        match fid with
        | some f =>
            match meta f with
            | .ok m =>
                match truthy m.filename with
                | some nm => names ++ [nm]
                | none => names
            | .error _ => names
        | none => names) []

/-- Embedding of `get_common_filenames` from src/app.py: on any listing failure return
`[]`; otherwise collect the names and return
`sorted({n for n in names if n})`, embedded as sorting the deduplicated
truthy names. -/
def get_common_filenames (listing : Except String (List VSItem))
    (meta : String → Except String FileMeta) : List String :=
  match listing with
  | .error _ => []
  | .ok items =>
      let names := collect_common_names items meta
      List.insertionSort (· ≤ ·) ((names.filter (fun n => !(n == ""))).dedup)

theorem string_length_eq_zero_iff (s : String) : s.length = 0 ↔ s = "" := by
  cases s with
  | mk data =>
      cases data with
      | nil => simp
      | cons c cs =>
          constructor
          · intro h
            simp [String.length] at h
          · intro h
            exact absurd (congrArg String.data h) (by simp)

theorem string_append_ne_empty (s t : String) (hs : s ≠ "") : s ++ t ≠ "" := by
  intro h
  have hlen := congrArg String.length h
  rw [String.length_append] at hlen
  have h0 : s.length = 0 := by
    have : ("" : String).length = 0 := rfl
    omega
  exact hs ((string_length_eq_zero_iff s).mp h0)

theorem wink_answer_nonempty_aux (instructor : Instructor) (common_vector_store_id : String)
    (history : List ChatMsg)
    (provider : List PromptMsg → List FileSearchTool → Except String Resp) :
    wink_answer instructor common_vector_store_id history provider ≠ "" := by
  cases hp : provider (build_messages history) (wink_tools instructor common_vector_store_id) with
  | error e =>
      simp only [wink_answer, hp]
      exact string_append_ne_empty _ _ (by decide)
  | ok resp =>
      simp only [wink_answer, hp]
      split
      · decide
      · assumption

/-- C3: Answer composition never yields emptiness and never throws — for
every tenant, transcript and provider outcome, `wink_answer` returns a
non-empty string; when the provider call fails it returns a string describing
the failure instead of raising, and when text extraction yields an empty
string it substitutes the fixed friendly fallback message. -/
theorem wink_answer_never_empty (instructor : Instructor) (common_vector_store_id : String)
    (history : List ChatMsg)
    (provider : List PromptMsg → List FileSearchTool → Except String Resp) :
    wink_answer instructor common_vector_store_id history provider ≠ ""
    ∧ (∀ e,
        provider (build_messages history) (wink_tools instructor common_vector_store_id)
          = .error e →
        wink_answer instructor common_vector_store_id history provider
          = "There was an API error: " ++ e)
    ∧ (∀ resp,
        provider (build_messages history) (wink_tools instructor common_vector_store_id)
          = .ok resp →
        extract_output_text resp = "" →
        wink_answer instructor common_vector_store_id history provider = WINK_FALLBACK) := by
  refine ⟨wink_answer_nonempty_aux instructor common_vector_store_id history provider, ?_, ?_⟩
  · intro e hp
    simp only [wink_answer, hp]
  · intro resp hp hempty
    simp only [wink_answer, hp, hempty]
    simp

theorem wink_answer_never_empty_witness :
    wink_answer ⟨"a@school.edu", "A", "a", none⟩ "" []
        (fun _ _ => .error "connection timeout")
      = "There was an API error: " ++ "connection timeout" :=
  (wink_answer_never_empty ⟨"a@school.edu", "A", "a", none⟩ "" []
      (fun _ _ => .error "connection timeout")).2.1 "connection timeout" rfl

theorem build_messages_foldl (history : List ChatMsg) (acc : List PromptMsg) :
    history.foldl build_step acc = acc ++ history.filterMap prompt_turn_spec := by
  induction history generalizing acc with
  | nil => simp
  | cons m ms ih =>
      simp only [List.foldl_cons, List.filterMap_cons]
      by_cases hc : (strip m.role = "user" ∨ strip m.role = "assistant") ∧ strip m.text ≠ ""
      · have h1 : build_step acc m = acc ++ [⟨strip m.role, strip m.text⟩] := by
          simp [build_step, hc]
        have h2 : prompt_turn_spec m = some ⟨strip m.role, strip m.text⟩ := by
          simp [prompt_turn_spec, hc]
        rw [h1, h2, ih]
        simp
      · have h1 : build_step acc m = acc := by
          simp [build_step, hc]
        have h2 : prompt_turn_spec m = none := by
          simp [prompt_turn_spec, hc]
        rw [h1, h2, ih]

/-- C8: Prompt construction — for every transcript, the prompt sent to the
generation provider is the single fixed system instruction followed by the
transcript turns in their original order, where every turn whose role is
neither `user` nor `assistant`, or whose text is blank after trimming, is
skipped, and every other turn is included with its role and trimmed text. -/
theorem wink_prompt_construction (history : List ChatMsg) :
    build_messages history
      = ⟨"system", WINK_SYSTEM_PROMPT⟩ :: history.filterMap prompt_turn_spec := by
  unfold build_messages
  rw [build_messages_foldl]
  rfl

/-- C9: The common filename listing is duplicate-free, free of empty names,
sorted lexicographically (rather than in remote listing order), a permutation
of the deduplicated collected names when the listing succeeds, and `[]` when
the overall listing fails — never an exception. -/
theorem get_common_filenames_clean (listing : Except String (List VSItem))
    (meta : String → Except String FileMeta) :
    (get_common_filenames listing meta).Sorted (· ≤ ·)
    ∧ (get_common_filenames listing meta).Nodup
    ∧ "" ∉ get_common_filenames listing meta
    ∧ (∀ items, listing = .ok items →
        (get_common_filenames listing meta).Perm
          (((collect_common_names items meta).filter (fun n => !(n == ""))).dedup))
    ∧ (∀ e, listing = .error e → get_common_filenames listing meta = []) := by
  cases listing with
  | error e =>
      refine ⟨by simp [get_common_filenames], by simp [get_common_filenames],
        by simp [get_common_filenames], ?_, fun e' h => rfl⟩
      intro items h
      exact Except.noConfusion h
  | ok items =>
      have hperm := List.perm_insertionSort ((· ≤ ·) : String → String → Prop)
        (((collect_common_names items meta).filter (fun n => !(n == ""))).dedup)
      refine ⟨?_, ?_, ?_, ?_, ?_⟩
      · exact List.sorted_insertionSort _ _
      · exact hperm.nodup_iff.mpr (List.nodup_dedup _)
      · intro hmem
        have hmem2 := hperm.mem_iff.mp hmem
        rw [List.mem_dedup, List.mem_filter] at hmem2
        simp at hmem2
      · intro its h
        injection h with h'
        subst h'
        exact hperm
      · intro e h
        exact Except.noConfusion h

theorem get_common_filenames_clean_witness :
    get_common_filenames (.error "service unavailable") (fun _ => .error "lookup failed")
      = [] :=
  (get_common_filenames_clean (.error "service unavailable")
    (fun _ => .error "lookup failed")).2.2.2.2 "service unavailable" rfl

theorem truthy_ne_empty (o : Option String) (v : String) (h : truthy o = some v) : v ≠ "" := by
  cases o with
  | none => exact Option.noConfusion h
  | some s =>
      simp only [truthy] at h
      by_cases hs : s = ""
      · rw [if_pos hs] at h
        exact Option.noConfusion h
      · rw [if_neg hs] at h
        injection h with h'
        subst h'
        exact hs

/-- C7 counterexample: the absence of the common index identifier is treated
as a failure by the code — the module-level configuration load raises a
`RuntimeError` when `WINK_VECTOR_STORE_ID` is unset or blank, so the claim
that absence is "simply skipped, not an error" is false for the process
configuration step it cites. -/
theorem common_store_absent_startup_counterexample :
    load_common_vector_store_id ""
      = .error "WINK_VECTOR_STORE_ID is not set. Set this environment variable to the Common WINK vector store ID." :=
  rfl

/-- C7 (amended): at startup an absent common index identifier is a fatal
configuration error, so the operations never actually run without one; the
operations themselves, however, do guard against a blank identifier — answer
composition's retrieval scope omits it (only the tenant's private identifier
remains) and still completes with a non-empty answer, and the common filename
listing yields `[]` on a failed listing rather than an error. -/
theorem common_store_blank_skipped (instructor : Instructor) (history : List ChatMsg)
    (provider : List PromptMsg → List FileSearchTool → Except String Resp)
    (meta : String → Except String FileMeta) :
    vector_store_ids instructor ""
      = (match truthy instructor.personal_vector_store_id with
          | some v => [v]
          | none => [])
    ∧ "" ∉ vector_store_ids instructor ""
    ∧ wink_answer instructor "" history provider ≠ ""
    ∧ (∀ e, get_common_filenames (.error e) meta = []) := by
  refine ⟨?_, ?_, wink_answer_nonempty_aux instructor "" history provider, fun e => rfl⟩
  · cases h : truthy instructor.personal_vector_store_id with
    | none => simp [vector_store_ids, h]
    | some v => simp [vector_store_ids, h]
  · cases h : truthy instructor.personal_vector_store_id with
    | none => simp [vector_store_ids, h]
    | some v =>
        simp [vector_store_ids, h]
        exact fun heq => truthy_ne_empty _ v h heq.symm

theorem common_store_blank_skipped_witness :
    "" ∉ vector_store_ids ⟨"a@school.edu", "A", "a", some "vs_9"⟩ "" :=
  (common_store_blank_skipped ⟨"a@school.edu", "A", "a", some "vs_9"⟩ []
    (fun _ _ => .error "e") (fun _ => .error "m")).2.1

/-! ## Document attachment workflow (manage_files upload/delete actions) -/

/-- A row of the `instructors_files` table (the fields the claims touch). -/
structure InstructorFile where
  instructor_id : Nat
  file_id : String
  filename : String
deriving DecidableEq, Repr

/-- Outcome of the delete action: the resulting table, whether the remote
detach was invoked, the flashed error if any, and whether "File deleted." was
flashed. -/
structure DeleteResult where
  files : List InstructorFile
  remote_called : Bool
  error : Option String
  ok : Bool
deriving DecidableEq, Repr

/-- The `action == "delete"` branch of `manage_files` from src/app.py: strip
the posted `file_id`; reject it when blank; look up the local record; invoke
the remote detach only when the instructor has a truthy personal vector store
id, surfacing a remote failure before touching local state; then delete the
local record when present and report success. -/
def delete_action (files : List InstructorFile) (instructor_id : Nat)
    (personal_vector_store_id : Option String) (raw_file_id : String)
    (remote_detach : Except String Unit) : DeleteResult :=
  let file_id := strip raw_file_id
  if file_id = "" then ⟨files, false, some "Missing file_id.", false⟩
  else
    let pred := fun (r : InstructorFile) =>
      r.instructor_id == instructor_id && r.file_id == file_id
    let record := files.find? pred
    let deleted := if record.isSome then files.eraseP pred else files
    match truthy personal_vector_store_id, remote_detach with
    | some _, .error e =>
        ⟨files, true, some ("Could not remove file from vector store: " ++ e), false⟩
    | some _, .ok _ => ⟨deleted, true, none, true⟩
    | none, _ => ⟨deleted, false, none, true⟩

/-- One incoming file of an upload batch together with the outcome the remote
service would give its two calls: `upload_file` (returning the remote file id)
and `add_file_to_vector_store`. -/
structure UploadFileIn where
  filename : String
  upload : Except String String
  attach : Except String Unit
deriving Repr

/-- The mutable state threaded through the upload loop: the table, the
temporary local copies currently on disk, the flashed per-file error messages
and the success count. -/
structure UploadState where
  files : List InstructorFile
  temps : List String
  errors : List String
  uploaded_count : Nat
deriving DecidableEq, Repr

/-- One iteration of the upload loop of `manage_files`: skip files without a
name; save the bytes to a temporary local path; try remote upload, then attach,
then persist the record and bump the count; on any failure flash one error for
this file; in all cases remove the temporary copy (the `finally` block). -/
def upload_one (instructor_id : Nat) (sanitize : String → String)
    (st : UploadState) (f : UploadFileIn) : UploadState :=
  if f.filename = "" then st
  else
    let safe_name := sanitize f.filename
    let st1 : UploadState := ⟨st.files, st.temps ++ [safe_name], st.errors, st.uploaded_count⟩
    let st2 : UploadState :=
      match f.upload with
      | .error e =>
          ⟨st1.files, st1.temps,
            st1.errors ++ ["Upload failed for " ++ safe_name ++ ": " ++ e],
            st1.uploaded_count⟩
      | .ok file_id =>
          match f.attach with
          | .error e =>
              ⟨st1.files, st1.temps,
                st1.errors ++ ["Upload failed for " ++ safe_name ++ ": " ++ e],
                st1.uploaded_count⟩
          | .ok _ =>
              ⟨st1.files ++ [⟨instructor_id, file_id, safe_name⟩], st1.temps,
                st1.errors, st1.uploaded_count + 1⟩
    ⟨st2.files, st2.temps.erase safe_name, st2.errors, st2.uploaded_count⟩

/-- The whole upload loop over a batch. -/
def process_files (instructor_id : Nat) (sanitize : String → String)
    (files : List UploadFileIn) (st : UploadState) : UploadState :=
  files.foldl (upload_one instructor_id sanitize) st

inductive UploadOutcome
  | no_vector_store
  | no_files
  | processed (st : UploadState)
deriving DecidableEq, Repr

/-- The `action == "upload"` branch of `manage_files`: reject when the
instructor has no truthy personal vector store id or when no file was chosen
(the guard inspects the first file), otherwise run the upload loop starting
from the current table, no temporaries, no errors and a zero count. -/
def upload_action (db : List InstructorFile) (instructor_id : Nat)
    (personal_vector_store_id : Option String) (sanitize : String → String)
    (files : List UploadFileIn) : UploadOutcome :=
  match truthy personal_vector_store_id with
  | none => .no_vector_store
  | some _ =>
      match files with
      | [] => .no_files
      | f0 :: _ =>
          if f0.filename = "" then .no_files
          else .processed (process_files instructor_id sanitize files ⟨db, [], [], 0⟩)

/-- The record the loop persists for a file, when and only when its name is
non-empty and both remote calls succeed. -/
def upload_record (instructor_id : Nat) (sanitize : String → String) (f : UploadFileIn) :
    Option InstructorFile :=
  if f.filename = "" then none
  else
    match f.upload, f.attach with
    | .ok file_id, .ok _ => some ⟨instructor_id, file_id, sanitize f.filename⟩
    | _, _ => none

/-- The error message the loop flashes for a file, when and only when its name
is non-empty and the upload or the attach fails. -/
def upload_error_msg (sanitize : String → String) (f : UploadFileIn) : Option String :=
  if f.filename = "" then none
  else
    match f.upload with
    | .error e => some ("Upload failed for " ++ sanitize f.filename ++ ": " ++ e)
    | .ok _ =>
        match f.attach with
        | .error e => some ("Upload failed for " ++ sanitize f.filename ++ ": " ++ e)
        | .ok _ => none

/-- A file (with a name) for which upload and attach both succeed. -/
def upload_success (f : UploadFileIn) : Bool :=
  !(f.filename == "") &&
  (match f.upload, f.attach with
    | .ok _, .ok _ => true
    | _, _ => false)

/-- A file (with a name) for which the upload or the attach fails. -/
def upload_failed (f : UploadFileIn) : Bool :=
  !(f.filename == "") &&
  (match f.upload, f.attach with
    | .ok _, .ok _ => false
    | _, _ => true)

/-- C4: Detach ordering and tolerance of a missing local record — with a
private store configured: if the remote detach fails, the local table is
unchanged and the error is surfaced; and when no local record matches the
posted id, the remote detach is still invoked and, when it succeeds, the
action reports success with no error about the missing record. -/
theorem delete_detach_ordering (files : List InstructorFile) (instructor_id : Nat)
    (personal_vector_store_id : Option String) (raw_file_id : String)
    (remote_detach : Except String Unit)
    (hfid : strip raw_file_id ≠ "")
    (s : String) (hvs : truthy personal_vector_store_id = some s) :
    (∀ e, remote_detach = .error e →
      delete_action files instructor_id personal_vector_store_id raw_file_id remote_detach
        = ⟨files, true, some ("Could not remove file from vector store: " ++ e), false⟩)
    ∧ (files.find? (fun r =>
          r.instructor_id == instructor_id && r.file_id == strip raw_file_id) = none →
      (delete_action files instructor_id personal_vector_store_id raw_file_id
          remote_detach).remote_called = true
      ∧ (remote_detach = .ok () →
          delete_action files instructor_id personal_vector_store_id raw_file_id remote_detach
            = ⟨files, true, none, true⟩)) := by
  constructor
  · intro e he
    subst he
    simp only [delete_action, hfid, hvs]
    simp [hfid]
  · intro hmiss
    constructor
    · cases remote_detach with
      | error e =>
          simp only [delete_action]
          simp [hfid, hvs]
      | ok u =>
          simp only [delete_action]
          simp [hfid, hvs]
    · intro hok
      subst hok
      simp only [delete_action]
      simp [hfid, hvs, hmiss]

theorem delete_detach_ordering_witness :
    (delete_action [] 7 (some "vs_1") "file-123" (.ok ())).remote_called = true
    ∧ (Except.ok () = (.ok () : Except String Unit) →
        delete_action [] 7 (some "vs_1") "file-123" (.ok ())
          = ⟨[], true, none, true⟩) :=
  (delete_detach_ordering [] 7 (some "vs_1") "file-123" (.ok ())
    (by decide) "vs_1" rfl).2 rfl

/-- C10: Delete with no private index configured still deletes local state —
when the tenant's personal vector store id is `None` or empty, the delete
action never invokes the remote detach and still reports success, deleting the
matching local record when one exists. -/
theorem delete_without_private_store (files : List InstructorFile) (instructor_id : Nat)
    (personal_vector_store_id : Option String) (raw_file_id : String)
    (remote_detach : Except String Unit)
    (hfid : strip raw_file_id ≠ "")
    (hvs : truthy personal_vector_store_id = none) :
    (delete_action files instructor_id personal_vector_store_id raw_file_id
        remote_detach).remote_called = false
    ∧ (delete_action files instructor_id personal_vector_store_id raw_file_id
        remote_detach).ok = true
    ∧ (delete_action files instructor_id personal_vector_store_id raw_file_id
        remote_detach).error = none
    ∧ (delete_action files instructor_id personal_vector_store_id raw_file_id
        remote_detach).files
      = (if (files.find? (fun r =>
            r.instructor_id == instructor_id && r.file_id == strip raw_file_id)).isSome
         then files.eraseP (fun r =>
            r.instructor_id == instructor_id && r.file_id == strip raw_file_id)
         else files) := by
  cases remote_detach with
  | error e =>
      simp only [delete_action]
      simp [hfid, hvs]
  | ok u =>
      simp only [delete_action]
      simp [hfid, hvs]

theorem delete_without_private_store_witness :
    (delete_action [⟨7, "file-123", "syllabus.pdf"⟩] 7 none "file-123"
        (.error "network down")).remote_called = false
    ∧ (delete_action [⟨7, "file-123", "syllabus.pdf"⟩] 7 none "file-123"
        (.error "network down")).ok = true
    ∧ (delete_action [⟨7, "file-123", "syllabus.pdf"⟩] 7 none "file-123"
        (.error "network down")).error = none
    ∧ (delete_action [⟨7, "file-123", "syllabus.pdf"⟩] 7 none "file-123"
        (.error "network down")).files
      = (if (([⟨7, "file-123", "syllabus.pdf"⟩] : List InstructorFile).find? (fun r =>
            r.instructor_id == 7 && r.file_id == strip "file-123")).isSome
         then ([⟨7, "file-123", "syllabus.pdf"⟩] : List InstructorFile).eraseP (fun r =>
            r.instructor_id == 7 && r.file_id == strip "file-123")
         else [⟨7, "file-123", "syllabus.pdf"⟩]) :=
  delete_without_private_store [⟨7, "file-123", "syllabus.pdf"⟩] 7 none "file-123"
    (.error "network down") (by decide) rfl

theorem process_files_characterization (instructor_id : Nat) (sanitize : String → String)
    (files : List UploadFileIn) (st : UploadState) (htemps : st.temps = []) :
    process_files instructor_id sanitize files st
      = ⟨st.files ++ files.filterMap (upload_record instructor_id sanitize),
         [],
         st.errors ++ files.filterMap (upload_error_msg sanitize),
         st.uploaded_count
           + (files.filterMap (upload_record instructor_id sanitize)).length⟩ := by
  induction files generalizing st with
  | nil =>
      cases st with
      | mk fl tm er ct =>
          simp only [process_files, List.foldl_nil, List.filterMap_nil, List.append_nil,
            List.length_nil, Nat.add_zero]
          subst htemps
          rfl
  | cons f fs ih =>
      by_cases hname : f.filename = ""
      · have h1 : upload_one instructor_id sanitize st f = st := by
          simp [upload_one, hname]
        simp only [process_files, List.foldl_cons] at *
        rw [h1, ih st htemps]
        simp [upload_record, upload_error_msg, hname]
      · cases hu : f.upload with
        | error e =>
            have h1 : upload_one instructor_id sanitize st f
                = ⟨st.files, [],
                    st.errors ++ ["Upload failed for " ++ sanitize f.filename ++ ": " ++ e],
                    st.uploaded_count⟩ := by
              simp [upload_one, hname, hu, htemps]
            simp only [process_files, List.foldl_cons] at *
            rw [h1, ih _ rfl]
            simp only [upload_record, upload_error_msg, hname, hu, if_neg hname,
              List.filterMap_cons]
            simp
        | ok file_id =>
            cases ha : f.attach with
            | error e =>
                have h1 : upload_one instructor_id sanitize st f
                    = ⟨st.files, [],
                        st.errors ++ ["Upload failed for " ++ sanitize f.filename ++ ": " ++ e],
                        st.uploaded_count⟩ := by
                  simp [upload_one, hname, hu, ha, htemps]
                simp only [process_files, List.foldl_cons] at *
                rw [h1, ih _ rfl]
                simp only [upload_record, upload_error_msg, hname, hu, ha, if_neg hname,
                  List.filterMap_cons]
                simp
            | ok u =>
                have h1 : upload_one instructor_id sanitize st f
                    = ⟨st.files ++ [⟨instructor_id, file_id, sanitize f.filename⟩], [],
                        st.errors, st.uploaded_count + 1⟩ := by
                  simp [upload_one, hname, hu, ha, htemps]
                simp only [process_files, List.foldl_cons] at *
                rw [h1, ih _ rfl]
                simp only [upload_record, upload_error_msg, hname, hu, ha, if_neg hname,
                  List.filterMap_cons]
                simp
                omega

theorem length_filterMap_eq_count {α β : Type} (g : α → Option β) (l : List α) :
    (l.filterMap g).length = (l.filter (fun a => (g a).isSome)).length := by
  induction l with
  | nil => rfl
  | cons a l ih => cases hg : g a <;> simp [hg, ih]

theorem upload_error_msg_isSome (sanitize : String → String) (f : UploadFileIn) :
    (upload_error_msg sanitize f).isSome = upload_failed f := by
  unfold upload_error_msg upload_failed
  by_cases hname : f.filename = ""
  · simp [hname]
  · cases hu : f.upload with
    | error e => simp [hname, hu]
    | ok fid => cases ha : f.attach <;> simp [hname, hu, ha]

theorem upload_record_isSome (instructor_id : Nat) (sanitize : String → String)
    (f : UploadFileIn) :
    (upload_record instructor_id sanitize f).isSome = upload_success f := by
  unfold upload_record upload_success
  by_cases hname : f.filename = ""
  · simp [hname]
  · cases hu : f.upload with
    | error e => simp [hname, hu]
    | ok fid => cases ha : f.attach <;> simp [hname, hu, ha]

/-- C5: Upload workflow atomicity and batch independence — with a private
store configured and a non-empty first file: the loop processes every file of
the batch (a failure on one file does not abort the rest); a record is
persisted exactly for the files whose remote upload and attach both succeed
(a failed file leaves no record); every temporary local copy is removed
whether or not its file succeeded; the caller gets a count equal to the number
of successful files and exactly one error message per failed file. -/
theorem upload_batch_properties (db : List InstructorFile) (instructor_id : Nat)
    (personal_vector_store_id : Option String) (sanitize : String → String)
    (files : List UploadFileIn)
    (v : String) (hvs : truthy personal_vector_store_id = some v)
    (f0 : UploadFileIn) (rest : List UploadFileIn) (hfiles : files = f0 :: rest)
    (hname : f0.filename ≠ "") :
    upload_action db instructor_id personal_vector_store_id sanitize files
      = .processed ⟨db ++ files.filterMap (upload_record instructor_id sanitize),
          [],
          files.filterMap (upload_error_msg sanitize),
          (files.filterMap (upload_record instructor_id sanitize)).length⟩
    ∧ (files.filterMap (upload_error_msg sanitize)).length
        = (files.filter upload_failed).length
    ∧ (files.filterMap (upload_record instructor_id sanitize)).length
        = (files.filter upload_success).length := by
  subst hfiles
  refine ⟨?_, ?_, ?_⟩
  · simp only [upload_action, hvs]
    rw [if_neg hname]
    rw [process_files_characterization instructor_id sanitize (f0 :: rest) ⟨db, [], [], 0⟩ rfl]
    simp
  · rw [length_filterMap_eq_count]
    congr 1
    apply List.filter_congr
    intro f _
    exact upload_error_msg_isSome sanitize f
  · rw [length_filterMap_eq_count]
    congr 1
    apply List.filter_congr
    intro f _
    exact upload_record_isSome instructor_id sanitize f

theorem upload_batch_properties_witness :
    upload_action [] 7 (some "vs_1") (fun s => s)
        [⟨"good.pdf", .ok "file-1", .ok ()⟩, ⟨"bad.pdf", .error "quota exceeded", .ok ()⟩]
      = .processed ⟨[] ++ ([⟨"good.pdf", .ok "file-1", .ok ()⟩,
            ⟨"bad.pdf", .error "quota exceeded", .ok ()⟩] : List UploadFileIn).filterMap
              (upload_record 7 (fun s => s)),
          [],
          ([⟨"good.pdf", .ok "file-1", .ok ()⟩,
            ⟨"bad.pdf", .error "quota exceeded", .ok ()⟩] : List UploadFileIn).filterMap
              (upload_error_msg (fun s => s)),
          (([⟨"good.pdf", .ok "file-1", .ok ()⟩,
            ⟨"bad.pdf", .error "quota exceeded", .ok ()⟩] : List UploadFileIn).filterMap
              (upload_record 7 (fun s => s))).length⟩
    ∧ (([⟨"good.pdf", .ok "file-1", .ok ()⟩,
          ⟨"bad.pdf", .error "quota exceeded", .ok ()⟩] : List UploadFileIn).filterMap
            (upload_error_msg (fun s => s))).length
        = (([⟨"good.pdf", .ok "file-1", .ok ()⟩,
            ⟨"bad.pdf", .error "quota exceeded", .ok ()⟩] : List UploadFileIn).filter
              upload_failed).length
    ∧ (([⟨"good.pdf", .ok "file-1", .ok ()⟩,
          ⟨"bad.pdf", .error "quota exceeded", .ok ()⟩] : List UploadFileIn).filterMap
            (upload_record 7 (fun s => s))).length
        = (([⟨"good.pdf", .ok "file-1", .ok ()⟩,
            ⟨"bad.pdf", .error "quota exceeded", .ok ()⟩] : List UploadFileIn).filter
              upload_success).length :=
  upload_batch_properties [] 7 (some "vs_1") (fun s => s)
    [⟨"good.pdf", .ok "file-1", .ok ()⟩, ⟨"bad.pdf", .error "quota exceeded", .ok ()⟩]
    "vs_1" rfl ⟨"good.pdf", .ok "file-1", .ok ()⟩
    [⟨"bad.pdf", .error "quota exceeded", .ok ()⟩] rfl (by decide)

end WinkLink
